import Mathlib

/-!
Verification development for the transport/session core of the go-datera
client library (file dsdk/connection.go). The Go code is shallowly embedded:
pure helpers become Lean functions, the session object becomes an explicit
state record threaded through the request pipeline, HTTP exchanges consume
responses from an explicit environment list, and Go panics become an
explicit constructor of the result type. JSON texts are modelled as an
inductive value type together with a decoder that mirrors the semantics of
encoding/json unmarshalling into the two response structs used by the code.
-/

namespace DSDK

/-- A JSON value, modelling the documents exchanged with the API. -/
inductive JSONValue where
  | null
  | boolVal (b : Bool)
  | numVal (n : Int)
  | strVal (s : String)
  | arrVal (elems : List JSONValue)
  | objVal (fields : List (String × JSONValue))

/-- The text of an HTTP body. A body either is empty text, is the textual
encoding of a JSON value, or is text that is not valid JSON (the tag only
distinguishes different malformed texts). -/
inductive BodyText where
  | emptyText
  | jsonText (v : JSONValue)
  | badText (tag : Nat)

/-- Lexing/parsing a body text as JSON, as encoding/json does before
decoding: empty input and malformed input fail. -/
def parseJSON : BodyText → Option JSONValue
  | BodyText.emptyText => none
  | BodyText.jsonText v => some v
  | BodyText.badText _ => none

/-- The ErrResponse21 struct of connection.go (error schema of the API). -/
structure ErrResponse21 where
  name : String := ""
  code : Int := 0
  http : Int := 0
  message : String := ""
  debug : String := ""
  ts : String := ""
  apiReqId : Int := 0
  storageNodeUUID : String := ""
  storageNodeHostname : String := ""
  schema : String := ""
  errors : List String := []
deriving DecidableEq

/-- The ReturnLogin struct of connection.go (login response schema). -/
structure ReturnLogin where
  key : String := ""
  version : String := ""
deriving DecidableEq

/-- encoding/json: a JSON value decoded into a string field. JSON null
leaves the field unchanged; any non-string, non-null value is a type
error. -/
def decStrField (cur : String) : JSONValue → Option String
  | JSONValue.null => some cur
  | JSONValue.strVal s => some s
  | _ => none

/-- encoding/json: a JSON value decoded into an int field. -/
def decIntField (cur : Int) : JSONValue → Option Int
  | JSONValue.null => some cur
  | JSONValue.numVal n => some n
  | _ => none

/-- encoding/json: a JSON value decoded into a string-list field. A null
element leaves the zero value of the element in place. -/
def decStrListField (cur : List String) : JSONValue → Option (List String)
  | JSONValue.null => some cur
  | JSONValue.arrVal xs =>
      xs.foldr
        (fun x acc =>
          match x, acc with
          | JSONValue.strVal s, some l => some (s :: l)
          | JSONValue.null, some l => some ("" :: l)
          | _, _ => none)
        (some [])
  | _ => none

/-- Decoding one object field into an ErrResponse21, by json tag; unknown
keys are ignored, as encoding/json does. -/
def applyErrField (e : ErrResponse21) (k : String) (v : JSONValue) : Option ErrResponse21 :=
  if k == "name" then (decStrField e.name v).map (fun s => { e with name := s })
  else if k == "code" then (decIntField e.code v).map (fun n => { e with code := n })
  else if k == "http" then (decIntField e.http v).map (fun n => { e with http := n })
  else if k == "message" then (decStrField e.message v).map (fun s => { e with message := s })
  else if k == "debug" then (decStrField e.debug v).map (fun s => { e with debug := s })
  else if k == "ts" then (decStrField e.ts v).map (fun s => { e with ts := s })
  else if k == "api_req_id" then (decIntField e.apiReqId v).map (fun n => { e with apiReqId := n })
  else if k == "storage_node_uuid" then
    (decStrField e.storageNodeUUID v).map (fun s => { e with storageNodeUUID := s })
  else if k == "storage_node_hostname" then
    (decStrField e.storageNodeHostname v).map (fun s => { e with storageNodeHostname := s })
  else if k == "schema" then (decStrField e.schema v).map (fun s => { e with schema := s })
  else if k == "errors" then (decStrListField e.errors v).map (fun l => { e with errors := l })
  else some e

/-- json.Unmarshal of a parsed JSON document into ErrResponse21. A null
document is a no-op success; a non-object, non-null document is a type
error; object fields are decoded left to right (later duplicates win). -/
def decodeErr21 : Option JSONValue → Option ErrResponse21
  | none => none
  | some JSONValue.null => some {}
  | some (JSONValue.objVal fields) =>
      fields.foldl (fun acc kv => acc.bind (fun e => applyErrField e kv.1 kv.2)) (some {})
  | some _ => none

/-- Decoding one object field into a ReturnLogin. -/
def applyLoginField (l : ReturnLogin) (k : String) (v : JSONValue) : Option ReturnLogin :=
  if k == "key" then (decStrField l.key v).map (fun s => { l with key := s })
  else if k == "version" then (decStrField l.version v).map (fun s => { l with version := s })
  else some l

/-- json.Unmarshal of a parsed JSON document into ReturnLogin. -/
def decodeReturnLogin : Option JSONValue → Option ReturnLogin
  | none => none
  | some JSONValue.null => some {}
  | some (JSONValue.objVal fields) =>
      fields.foldl (fun acc kv => acc.bind (fun l => applyLoginField l kv.1 kv.2)) (some {})
  | some _ => none

/-- The sentinel error name that triggers a re-login (connection.go). -/
def permDeniedError : String := "PermissionDeniedError"

/-- The unset-token sentinel (connection.go constant USetToken). -/
def USetToken : String := ""

/-- The fixed error-status set of connection.go (map httpErrors). -/
def httpErrorsSet (code : Int) : Bool :=
  code == 400 || code == 401 || code == 422 || code == 500

/-- Error values returned by the embedded functions, mirroring the Go
error values of connection.go: the Retry sentinel, the fmt.Errorf on
resp.Status, a transport failure from Client.Do, and other message
errors. -/
inductive ErrVal where
  | retrySentinel
  | httpStatusErr (status : String)
  | transportErr
  | msgErr (s : String)
deriving DecidableEq

/-- Outcome of handleBadResponse: either a returned error value (none for
a nil error) or a Go panic. -/
inductive ClassOut where
  | val (e : Option ErrVal)
  | panicked
deriving DecidableEq

/-- handleBadResponse (connection.go lines 417-439), as a function of the
status code, the status line, and the text still readable from resp.Body
at the time of the call. On a 401 the body is read and unmarshalled as an
ErrResponse21; an unreadable or undecodable body panics; a decoded name
equal to the sentinel returns the Retry error; otherwise any status in
the fixed error set returns an error built from the status line, and any
other status returns nil. -/
def handleBadResponse (statusCode : Int) (status : String) (remainingBody : BodyText) : ClassOut :=
  let ok := httpErrorsSet statusCode
  if statusCode == 401 then
    match decodeErr21 (parseJSON remainingBody) with
    | none => ClassOut.panicked
    | some e =>
      if e.name == permDeniedError then ClassOut.val (some ErrVal.retrySentinel)
      else if ok then ClassOut.val (some (ErrVal.httpStatusErr status))
      else ClassOut.val none
  else if ok then ClassOut.val (some (ErrVal.httpStatusErr status))
  else ClassOut.val none

/-- Splitting a character list at every occurrence of the separator, the
semantics of strings.Split with a one-character separator. -/
def splitCharList (sep : Char) : List Char → List (List Char)
  | [] => [[]]
  | c :: rest =>
    let r := splitCharList sep rest
    if c == sep then [] :: r
    else
      match r with
      | h :: t => (c :: h) :: t
      | [] => [[c]]

/-- strings.Split(s, sep) for a one-character separator. -/
def splitStr (sep : Char) (s : String) : List String :=
  (splitCharList sep s.toList).map String.mk

/-- An argument passed through a Go variadic empty-interface list. -/
inductive GoArg where
  | strArg (s : String)
  | mapArg (m : List (String × JSONValue))
  | intArg (n : Int)
  | nilArg

/-- Result of parseParams: the built structure, the EncodingError of the
default branch, or a runtime panic. -/
inductive ParamsOut where
  | ok (m : List (String × JSONValue))
  | encodingErr
  | panicked (msg : String)

/-- Association-list update with the overwrite semantics of a Go map
assignment. -/
def alistSet {α : Type} (m : List (String × α)) (k : String) (v : α) : List (String × α) :=
  match m with
  | [] => [(k, v)]
  | (k0, v0) :: rest => if k0 == k then (k, v) :: rest else (k0, v0) :: alistSet rest k v

/-- First binding of a key in an association list, with a default. -/
def alistGetD {α : Type} (m : List (String × α)) (k : String) (dflt : α) : α :=
  match m with
  | [] => dflt
  | (k0, v0) :: rest => if k0 == k then v0 else alistGetD rest k dflt

/-- Best-effort coercion of parseParams: the literal strings true and
false become booleans via strconv.ParseBool, everything else stays a
string. -/
def coerceVal (s : String) : JSONValue :=
  if s == "true" then JSONValue.boolVal true
  else if s == "false" then JSONValue.boolVal false
  else JSONValue.strVal s

/-- One iteration of the parseParams loop over params: the value is
asserted to be a string (a non-string value panics the assertion), split
on every equals sign, and entries p[0], p[1] are used (a split with fewer
than two pieces panics the index). -/
def parseParamsStep (acc : ParamsOut) (a : GoArg) : ParamsOut :=
  match acc, a with
  | ParamsOut.ok m, GoArg.strArg s =>
    match splitStr '=' s with
    | k :: v :: _ => ParamsOut.ok (alistSet m k (coerceVal v))
    | _ => ParamsOut.panicked "index out of range"
  | ParamsOut.ok _, _ => ParamsOut.panicked "interface conversion"
  | e, _ => e

/-- parseParams (connection.go lines 441-467). Zero arguments return an
empty structure; a first argument of map type is returned as-is; a nil
first argument reaches the default branch and returns the EncodingError;
any other first argument matches the catch-all interface case and the
loop over all params runs. -/
def parseParamsGo (params : List GoArg) : ParamsOut :=
  match params with
  | [] => ParamsOut.ok []
  | fparam :: _ =>
    match fparam with
    | GoArg.mapArg m => ParamsOut.ok m
    | GoArg.nilArg => ParamsOut.encodingErr
    | _ => params.foldl parseParamsStep (ParamsOut.ok [])

/-- The opening brace character, written by code point. -/
def lbrace : Char := Char.ofNat 123

/-- The closing brace character, written by code point. -/
def rbrace : Char := Char.ofNat 125

/-- One piece of a parsed URL template: a literal character or a named
field action. -/
inductive TplPiece where
  | litChar (c : Char)
  | field (name : String)

/-- Characters allowed in a field name of the modelled template
fragment. -/
def isFieldChar (c : Char) : Bool :=
  !(c == lbrace || c == rbrace || c == '.' || c == ' ')

/-- Parser for the fragment of text/template used by connection.go:
literal text and field actions of shape open-open dot name close-close.
A template the parser rejects models a template text/template fails to
parse. The fuel argument starts at the text length and each step consumes
at least one character, so the fuel never runs out on reachable inputs. -/
def scanTpl : Nat → List Char → Option (List TplPiece)
  | _, [] => some []
  | 0, _ :: _ => none
  | Nat.succ fuel, c :: cs =>
    if c == lbrace then
      match cs with
      | c2 :: cs2 =>
        if c2 == lbrace then
          match cs2 with
          | d :: cs3 =>
            if d == '.' then
              let nm := cs3.takeWhile isFieldChar
              match cs3.dropWhile isFieldChar with
              | r1 :: r2 :: rest2 =>
                if nm.isEmpty then none
                else if r1 == rbrace && r2 == rbrace then
                  (scanTpl fuel rest2).map (fun ps => TplPiece.field (String.mk nm) :: ps)
                else none
              | _ => none
            else none
          | [] => none
        else (scanTpl fuel cs).map (fun ps => TplPiece.litChar c :: ps)
      | [] => some [TplPiece.litChar c]
    else (scanTpl fuel cs).map (fun ps => TplPiece.litChar c :: ps)

/-- template.New(...).Parse(fstring), in the modelled fragment. -/
def parseTmpl (s : String) : Option (List TplPiece) :=
  scanTpl s.toList.length s.toList

/-- The character list a rendered piece contributes. A field absent from
the data map renders as the no-value marker, as text/template prints an
invalid reflect value obtained from a missing map key. -/
def tplPieceChars (m : List (String × String)) : TplPiece → List Char
  | TplPiece.litChar c => [c]
  | TplPiece.field k => (alistGetD m k "<no value>").toList

/-- tpl.Execute over a data map. -/
def renderTpl (ps : List TplPiece) (m : List (String × String)) : String :=
  String.mk (ps.foldr (fun p acc => tplPieceChars m p ++ acc) [])

/-- The source text of a field action for a name, used both to build the
two connection templates and for the strings.Contains check of
parseTemplate. -/
def tplVar (k : String) : String :=
  String.mk (lbrace :: lbrace :: '.' :: (k.toList ++ [rbrace, rbrace]))

/-- connTemplate of connection.go. -/
def connTemplate : String :=
  "http://" ++ tplVar "hostname" ++ ":" ++ tplVar "port" ++ "/v" ++ tplVar "version" ++ "/" ++ tplVar "endpoint"

/-- secConnTemplate of connection.go. -/
def secConnTemplate : String :=
  "https://" ++ tplVar "hostname" ++ ":" ++ tplVar "port" ++ "/v" ++ tplVar "version" ++ "/" ++ tplVar "endpoint"

/-- Whether the first list is a prefix of the second. -/
def listStarts : List Char → List Char → Bool
  | [], _ => true
  | _ :: _, [] => false
  | b :: bs, a :: as => b == a && listStarts bs as

/-- strings.Contains(s, sub): sub occurs as a contiguous run inside s. -/
def strContains (s sub : String) : Bool :=
  let rec go : List Char → Bool
    | [] => sub.toList.isEmpty
    | c :: cs => listStarts sub.toList (c :: cs) || go cs
  go s.toList

/-- s begins with pre. -/
def strStarts (s pre : String) : Bool :=
  listStarts pre.toList s.toList

/-- An argument of parseTemplate, arriving through the variadic
empty-interface list. -/
inductive TplArg where
  | strArg (s : String)
  | mapArg (m : List (String × String))
  | otherArg

/-- Result of parseTemplate. -/
inductive TplOut where
  | ok (s : String)
  | err (msg : String)
  | panicked (msg : String)

/-- Generic outcome of an embedded Go function: a returned value, a
propagating panic, or exhausted recursion fuel of the embedding. -/
inductive GoOut (α : Type) where
  | ok (a : α)
  | panicked (msg : String)
  | fuelOut

/-- The argm map built by the type switch of parseTemplate: a map first
argument is taken as-is; a string first argument makes the loop assert
every argument to be a string (a non-string later argument panics) and
collect the splits of length exactly two; any other non-nil first
argument hits the default branch, which only prints and leaves argm
empty. An empty argument list panics indexing args[0]. -/
def buildArgm : List TplArg → GoOut (List (String × String))
  | [] => GoOut.panicked "index out of range"
  | a0 :: rest =>
    match a0 with
    | TplArg.mapArg m => GoOut.ok m
    | TplArg.otherArg => GoOut.ok []
    | TplArg.strArg _ =>
      (a0 :: rest).foldl
        (fun acc a =>
          match acc, a with
          | GoOut.ok m, TplArg.strArg s =>
            match splitStr '=' s with
            | [k, v] => GoOut.ok (alistSet m k v)
            | _ => GoOut.ok m
          | GoOut.ok _, _ => GoOut.panicked "interface conversion"
          | e, _ => e)
        (GoOut.ok [])

/-- parseTemplate (connection.go lines 121-154): parse the template text,
build argm from the arguments, fail on the first argm key whose field
action does not occur in the template text, then execute the template. -/
def parseTemplateGo (fstring : String) (args : List TplArg) : TplOut :=
  match parseTmpl fstring with
  | none => TplOut.err "template parse error"
  | some pieces =>
    match buildArgm args with
    | GoOut.panicked msg => TplOut.panicked msg
    | GoOut.fuelOut => TplOut.panicked "unreachable"
    | GoOut.ok argm =>
      match argm.find? (fun p => !strContains fstring (tplVar p.1)) with
      | some p => TplOut.err ("Could not find arg: " ++ p.1)
      | none => TplOut.ok (renderTpl pieces argm)

/-- The mutable part of the APIConnection struct, threaded explicitly.
The mutexHeld flag models the sync.Mutex of the session for the
single-threaded executions considered here. -/
structure ConnState where
  headers : List (String × String)
  apiToken : String
  hostname : String
  port : String
  apiVersion : String
  username : String
  password : String
  tenant : String
  secure : Bool
  method : String
  endpoint : String
  qparams : List String
  mutexHeld : Bool

/-- An uppercase hexadecimal digit. -/
def hexDigitUp (n : Nat) : Char :=
  if n < 10 then Char.ofNat (48 + n) else Char.ofNat (55 + n)

/-- Percent-encoding of one byte. -/
def escByte (b : Nat) : List Char :=
  ['%', hexDigitUp (b / 16), hexDigitUp (b % 16)]

/-- The UTF-8 bytes of a character. -/
def utf8Bytes (c : Char) : List Nat :=
  let n := c.toNat
  if n < 128 then [n]
  else if n < 2048 then [192 + n / 64, 128 + n % 64]
  else if n < 65536 then [224 + n / 4096, 128 + (n / 64) % 64, 128 + n % 64]
  else [240 + n / 262144, 128 + (n / 4096) % 64, 128 + (n / 64) % 64, 128 + n % 64]

/-- url.QueryEscape on one character: ASCII letters, digits and the four
marks stay, a space becomes a plus, every other byte is percent-encoded
with uppercase hex. -/
def queryEscapeChar (c : Char) : List Char :=
  if c.isAlphanum || c == '-' || c == '_' || c == '.' || c == '~' then [c]
  else if c == ' ' then ['+']
  else (utf8Bytes c).foldr (fun b acc => escByte b ++ acc) []

/-- url.QueryEscape. -/
def queryEscape (s : String) : String :=
  String.mk (s.toList.foldr (fun c acc => queryEscapeChar c ++ acc) [])

/-- One iteration of UpdateHeaders (connection.go lines 157-163): the
argument is split on every equals sign and entry h[1] is written under
key h[0]; an argument with no equals sign leaves a one-element split and
the index panics. -/
def updateHeadersStep (acc : GoOut (List (String × String))) (s : String) :
    GoOut (List (String × String)) :=
  match acc with
  | GoOut.ok m =>
    match splitStr '=' s with
    | k :: v :: _ => GoOut.ok (alistSet m k v)
    | _ => GoOut.panicked "index out of range"
  | e => e

/-- The loop of UpdateHeaders over its arguments, then the nil error
return of the source on completion. -/
def updateHeadersGo (hs : List (String × String)) (args : List String) :
    GoOut (List (String × String) × Option ErrVal) :=
  match args.foldl updateHeadersStep (GoOut.ok hs) with
  | GoOut.ok m => GoOut.ok (m, none)
  | GoOut.panicked msg => GoOut.panicked msg
  | GoOut.fuelOut => GoOut.fuelOut

/-- strings.Join(xs, sep) for the ampersand separator. -/
def joinAmp : List String → String
  | [] => ""
  | [s] => s
  | s :: rest => s ++ "&" ++ joinAmp rest

/-- strings.Trim(s, sep) for the slash cutset: remove leading and
trailing slashes. -/
def trimSlashes (s : String) : String :=
  String.mk (((s.toList.dropWhile (fun c => c == '/')).reverse.dropWhile (fun c => c == '/')).reverse)

/-- strings.ToLower for ASCII. -/
def asciiLower (s : String) : String :=
  String.mk (s.toList.map (fun c => if c.isUpper then Char.ofNat (c.toNat + 32) else c))

/-- The method switch of doRequest: the four verbs map to their HTTP
method constants; anything else panics. -/
def methodDispatch (method : String) : Option String :=
  let m := asciiLower method
  if m == "get" then some "GET"
  else if m == "put" then some "PUT"
  else if m == "post" then some "POST"
  else if m == "delete" then some "DELETE"
  else none

/-- prepConn (connection.go lines 165-193): render the scheme template for
the current state, then add the Auth-Token header when a token is cached
(through UpdateHeaders, whose argument always contains an equals sign, so
the unreachable non-ok arm keeps the state), then URL-escape every entry
of the qparams field in place, then append the joined query string when
it is nonempty. A template error returns before any mutation. -/
def prepConn (st : ConnState) : Option String × ConnState :=
  let fstring := if st.secure then secConnTemplate else connTemplate
  let m := [("hostname", st.hostname), ("port", st.port), ("endpoint", st.endpoint),
            ("version", st.apiVersion)]
  match parseTemplateGo fstring [TplArg.mapArg m] with
  | TplOut.ok conn =>
    let hs1 :=
      if st.apiToken == USetToken then st.headers
      else
        match updateHeadersGo st.headers ["Auth-Token=" ++ st.apiToken] with
        | GoOut.ok (hs, _) => hs
        | _ => st.headers
    let st2 := { st with headers := hs1, qparams := st.qparams.map queryEscape }
    let qp := joinAmp st2.qparams
    let conn2 := if qp.toList.isEmpty then conn else conn ++ "?" ++ qp
    (some conn2, st2)
  | _ => (none, st)

/-- One response available from the HTTP transport: status code, status
line, and the body stream content. -/
structure HResp where
  code : Int
  status : String
  body : BodyText

/-- Events observable from a pipeline run: an HTTP exchange with its
method and URL, and an entry into Login. -/
inductive TraceEv where
  | exch (method : String) (url : String)
  | loginEnter
deriving DecidableEq

/-- Result of running an embedded stateful operation: the returned value
or panic, the session state, the responses not yet consumed, and the
emitted trace. -/
structure Out (α : Type) where
  result : GoOut α
  st : ConnState
  env : List HResp
  trace : List TraceEv

mutual

/-- doRequest (connection.go lines 195-294). The lock is taken for the
attempt; an unknown verb panics; the endpoint is trimmed and the verb and
query parameters are stored on the state; prepConn builds the URL; one
response is consumed from the environment; the body is fully read into
rbody; handleBadResponse then re-reads resp.Body, which was already
drained at line 266, so it is applied to empty remaining text; when it
yields the Retry sentinel on a non-retry call the mutex is released, the
token cleared, Login invoked, and the call re-issued with retry set, the
re-issued result being discarded as in the source; the trailing unlock of
line 292 panics when the mutex is no longer held. Early error returns
keep the mutex held as the source does. -/
def doRequest : Nat → ConnState → List HResp → String → String → Option JSONValue →
    List String → Bool → Bool → Out (BodyText × Option ErrVal)
  | 0, st, env, _, _, _, _, _, _ => ⟨GoOut.fuelOut, st, env, []⟩
  | Nat.succ fuel, st, env, method, endpoint, body, qparams, sensitive, retry =>
    if st.mutexHeld then ⟨GoOut.panicked "deadlock", st, env, []⟩
    else
      let st := { st with mutexHeld := true }
      match methodDispatch method with
      | none => ⟨GoOut.panicked "Did not understand method request", st, env, []⟩
      | some m =>
        let st := { st with method := m, endpoint := trimSlashes endpoint, qparams := qparams }
        match prepConn st with
        | (none, st2) => ⟨GoOut.ok (BodyText.emptyText, some (ErrVal.msgErr "template")), st2, env, []⟩
        | (some conn, st2) =>
          match env with
          | [] => ⟨GoOut.ok (BodyText.emptyText, some ErrVal.transportErr), st2, env, []⟩
          | resp :: envRest =>
            let trace1 := [TraceEv.exch m conn]
            let rbody := resp.body
            match handleBadResponse resp.code resp.status BodyText.emptyText with
            | ClassOut.panicked => ⟨GoOut.panicked "Couldnt understand response", st2, envRest, trace1⟩
            | ClassOut.val err =>
              if err == some ErrVal.retrySentinel && !retry then
                let st3 := { st2 with mutexHeld := false, apiToken := USetToken }
                let lr := login fuel st3 envRest
                match lr.result with
                | GoOut.panicked msg => ⟨GoOut.panicked msg, lr.st, lr.env, trace1 ++ lr.trace⟩
                | GoOut.fuelOut => ⟨GoOut.fuelOut, lr.st, lr.env, trace1 ++ lr.trace⟩
                | GoOut.ok _ =>
                  let rr := doRequest fuel lr.st lr.env method endpoint body lr.st.qparams sensitive true
                  match rr.result with
                  | GoOut.panicked msg => ⟨GoOut.panicked msg, rr.st, rr.env, trace1 ++ lr.trace ++ rr.trace⟩
                  | GoOut.fuelOut => ⟨GoOut.fuelOut, rr.st, rr.env, trace1 ++ lr.trace ++ rr.trace⟩
                  | GoOut.ok _ =>
                    if rr.st.mutexHeld then
                      ⟨GoOut.ok (rbody, err), { rr.st with mutexHeld := false }, rr.env,
                        trace1 ++ lr.trace ++ rr.trace⟩
                    else
                      ⟨GoOut.panicked "sync: unlock of unlocked mutex", rr.st, rr.env,
                        trace1 ++ lr.trace ++ rr.trace⟩
              else ⟨GoOut.ok (rbody, err), { st2 with mutexHeld := false }, envRest, trace1⟩

/-- Login (connection.go lines 379-404). When a token is cached the
function is a no-op returning nil. Otherwise a sensitive Put to the login
endpoint is made with the name and password pairs; on error the body is
unmarshalled as an ErrResponse21 and its message surfaced, the original
error surfacing when that decode fails; on success the body is
unmarshalled as a ReturnLogin, an empty key is an error, and otherwise
the token is stored. -/
def login : Nat → ConnState → List HResp → Out (Option ErrVal)
  | 0, st, env => ⟨GoOut.fuelOut, st, env, []⟩
  | Nat.succ fuel, st, env =>
    if st.apiToken == "" then
      let p1 := "name=" ++ st.username
      let p2 := "password=" ++ st.password
      let pr := put fuel st env "login" true [GoArg.strArg p1, GoArg.strArg p2]
      match pr.result with
      | GoOut.panicked msg => ⟨GoOut.panicked msg, pr.st, pr.env, TraceEv.loginEnter :: pr.trace⟩
      | GoOut.fuelOut => ⟨GoOut.fuelOut, pr.st, pr.env, TraceEv.loginEnter :: pr.trace⟩
      | GoOut.ok (resp, err) =>
        match err with
        | some e0 =>
          match decodeErr21 (parseJSON resp) with
          | none => ⟨GoOut.ok (some e0), pr.st, pr.env, TraceEv.loginEnter :: pr.trace⟩
          | some e => ⟨GoOut.ok (some (ErrVal.msgErr e.message)), pr.st, pr.env, TraceEv.loginEnter :: pr.trace⟩
        | none =>
          match decodeReturnLogin (parseJSON resp) with
          | none => ⟨GoOut.ok (some (ErrVal.msgErr "unmarshal error")), pr.st, pr.env, TraceEv.loginEnter :: pr.trace⟩
          | some l =>
            if l.key == "" then
              ⟨GoOut.ok (some (ErrVal.msgErr "No Api Token In Response")), pr.st, pr.env, TraceEv.loginEnter :: pr.trace⟩
            else ⟨GoOut.ok none, { pr.st with apiToken := l.key }, pr.env, TraceEv.loginEnter :: pr.trace⟩
    else ⟨GoOut.ok none, st, env, [TraceEv.loginEnter]⟩

/-- Put (connection.go lines 314-324): encode the body parameters, give
up on an encoding error with empty bytes, marshal the structure, and
delegate to doRequest with the put verb and no query parameters. -/
def put : Nat → ConnState → List HResp → String → Bool → List GoArg → Out (BodyText × Option ErrVal)
  | 0, st, env, _, _, _ => ⟨GoOut.fuelOut, st, env, []⟩
  | Nat.succ fuel, st, env, endpoint, sensitive, bodyp =>
    match parseParamsGo bodyp with
    | ParamsOut.panicked msg => ⟨GoOut.panicked msg, st, env, []⟩
    | ParamsOut.encodingErr =>
      ⟨GoOut.ok (BodyText.emptyText, some (ErrVal.msgErr "Couldnt Parse Params")), st, env, []⟩
    | ParamsOut.ok m => doRequest fuel st env "put" endpoint (some (JSONValue.objVal m)) [] sensitive false

end

/-- Get (connection.go lines 296-298). -/
def get (fuel : Nat) (st : ConnState) (env : List HResp) (endpoint : String)
    (qparams : List String) : Out (BodyText × Option ErrVal) :=
  doRequest fuel st env "get" endpoint none qparams false false

/-- Post (connection.go lines 340-350). -/
def post (fuel : Nat) (st : ConnState) (env : List HResp) (endpoint : String)
    (bodyp : List GoArg) : Out (BodyText × Option ErrVal) :=
  match parseParamsGo bodyp with
  | ParamsOut.panicked msg => ⟨GoOut.panicked msg, st, env, []⟩
  | ParamsOut.encodingErr =>
    ⟨GoOut.ok (BodyText.emptyText, some (ErrVal.msgErr "Couldnt Parse Params")), st, env, []⟩
  | ParamsOut.ok m => doRequest fuel st env "post" endpoint (some (JSONValue.objVal m)) [] false false

/-- Delete (connection.go lines 366-376). -/
def delete (fuel : Nat) (st : ConnState) (env : List HResp) (endpoint : String)
    (bodyp : List GoArg) : Out (BodyText × Option ErrVal) :=
  match parseParamsGo bodyp with
  | ParamsOut.panicked msg => ⟨GoOut.panicked msg, st, env, []⟩
  | ParamsOut.encodingErr =>
    ⟨GoOut.ok (BodyText.emptyText, some (ErrVal.msgErr "Couldnt Parse Params")), st, env, []⟩
  | ParamsOut.ok m => doRequest fuel st env "delete" endpoint (some (JSONValue.objVal m)) [] false false

/-- Whether a character occurs in a list. -/
def containsChar (sep : Char) : List Char → Bool
  | [] => false
  | c :: rest => c == sep || containsChar sep rest

/-- Key part of a flat pair: the text before the first equals sign. -/
def firstSeg (s : String) : String :=
  String.mk (s.toList.takeWhile (fun c => !(c == '=')))

/-- Value part of a flat pair as the encoder keeps it: the text between
the first equals sign and the second one (or the end). -/
def secondSeg (s : String) : String :=
  String.mk (((s.toList.dropWhile (fun c => !(c == '='))).drop 1).takeWhile (fun c => !(c == '=')))

/-- Spec-side description of the flat-pair encoding, for comparison with
parseParams: each argument contributes the key before its first equals
sign and the value between the first and second equals signs, with the
true and false literals coerced to booleans. -/
def encodeFlatSpec (args : List String) : List (String × JSONValue) :=
  args.foldl (fun m s => alistSet m (firstSeg s) (coerceVal (secondSeg s))) []

/-- Whether a trace event is an HTTP exchange. -/
def isExchEv : TraceEv → Bool
  | TraceEv.exch _ _ => true
  | _ => false

/-- Whether a trace event is an entry into Login. -/
def isLoginEv : TraceEv → Bool
  | TraceEv.loginEnter => true
  | _ => false

/-- Whether a classifier outcome is a returned Fatal error built from the
status line. -/
def isFatalOut : ClassOut → Bool
  | ClassOut.val (some (ErrVal.httpStatusErr _)) => true
  | _ => false

/-- Whether a classifier outcome is a returned non-nil error value. -/
def isErrValOut : ClassOut → Bool
  | ClassOut.val (some _) => true
  | _ => false

/-- Whether a parseParams outcome is the EncodingError return. -/
def isEncodingErr : ParamsOut → Bool
  | ParamsOut.encodingErr => true
  | _ => false

/-- A 401 body carrying the PermissionDeniedError name. -/
def permDeniedBody : JSONValue :=
  JSONValue.objVal [("name", JSONValue.strVal "PermissionDeniedError"),
    ("code", JSONValue.numVal 7), ("http", JSONValue.numVal 401),
    ("message", JSONValue.strVal "denied")]

/-- A session state as NewAPIConnection builds it, with a cached token. -/
def baseState : ConnState :=
  { headers := [("Content-Type", "application/json"), ("tenant", "t1")],
    apiToken := "tok0", hostname := "h", port := "7717", apiVersion := "2.1",
    username := "admin", password := "pw", tenant := "t1", secure := false,
    method := "", endpoint := "", qparams := [], mutexHeld := false }

/-- Environment for the C1 scenario: a 401 PermissionDeniedError answer
followed by a successful answer that a retried attempt would consume. -/
def c1Env : List HResp :=
  [⟨401, "401 Unauthorized", BodyText.jsonText permDeniedBody⟩,
   ⟨200, "200 OK", BodyText.jsonText (JSONValue.objVal [("tenant", JSONValue.strVal "t1")])⟩]

/-- Environment for the C2 scenario of the spec: two consecutive 401
PermissionDeniedError answers for the same logical call. -/
def c2Env : List HResp :=
  [⟨401, "401 Unauthorized", BodyText.jsonText permDeniedBody⟩,
   ⟨401, "401 Unauthorized", BodyText.jsonText permDeniedBody⟩]

/-- Environment for the C10 scenario: a 401 PermissionDeniedError answer
that the spec expects to trigger a re-authenticated retry. -/
def c10Env : List HResp :=
  [⟨401, "401 Unauthorized", BodyText.jsonText permDeniedBody⟩,
   ⟨401, "401 Unauthorized", BodyText.jsonText permDeniedBody⟩]

/-- The data map prepConn passes to the template renderer, at concrete
field values. -/
def stdTplMap : List (String × String) :=
  [("hostname", "h"), ("port", "7717"), ("endpoint", "ep"), ("version", "2.1")]

/-- A secure session state for the C8 scenario. -/
def c8State : ConnState :=
  { baseState with secure := true, endpoint := "ep" }

/-- The rendering of the insecure connection template over the standard
data map, spelled as the character list the renderer produces. -/
def connUrlBase (h p v e : String) : String :=
  String.mk ('h' :: 't' :: 't' :: 'p' :: ':' :: '/' :: '/' ::
    (h.toList ++ (':' :: (p.toList ++ ('/' :: 'v' :: (v.toList ++ ('/' :: (e.toList ++ []))))))))

/-- The rendering of the secure connection template over the standard
data map. -/
def secUrlBase (h p v e : String) : String :=
  String.mk ('h' :: 't' :: 't' :: 'p' :: 's' :: ':' :: '/' :: '/' ::
    (h.toList ++ (':' :: (p.toList ++ ('/' :: 'v' :: (v.toList ++ ('/' :: (e.toList ++ []))))))))

/-! Helper lemmas about splitting, the parameter-encoder loop, and the
connection builder. -/

theorem takeWhile_of_sepFree (sep : Char) (l : List Char) (h : containsChar sep l = false) :
    l.takeWhile (fun c => !(c == sep)) = l := by
  induction l with
  | nil => rfl
  | cons c rest ih =>
    simp only [containsChar, Bool.or_eq_false_iff] at h
    simp [List.takeWhile_cons, h.1, ih h.2]

theorem splitCharList_sepFree (sep : Char) (l : List Char) (h : containsChar sep l = false) :
    splitCharList sep l = [l] := by
  induction l with
  | nil => rfl
  | cons c rest ih =>
    simp only [containsChar, Bool.or_eq_false_iff] at h
    simp [splitCharList, h.1, ih h.2]

theorem splitCharList_cons_of_contains (sep : Char) (l : List Char) (h : containsChar sep l = true) :
    splitCharList sep l
      = l.takeWhile (fun c => !(c == sep))
        :: splitCharList sep ((l.dropWhile (fun c => !(c == sep))).drop 1) := by
  induction l with
  | nil => simp [containsChar] at h
  | cons c rest ih =>
    cases hc : (c == sep)
    · have hrest : containsChar sep rest = true := by
        simp only [containsChar, hc, Bool.false_or] at h; exact h
      simp [splitCharList, hc, List.takeWhile_cons, List.dropWhile_cons, ih hrest]
    · simp [splitCharList, hc, List.takeWhile_cons, List.dropWhile_cons]

theorem splitCharList_head_shape (sep : Char) (l : List Char) :
    ∃ t, splitCharList sep l = l.takeWhile (fun c => !(c == sep)) :: t := by
  cases hc : containsChar sep l
  · exact ⟨[], by rw [splitCharList_sepFree sep l hc, takeWhile_of_sepFree sep l hc]⟩
  · exact ⟨_, splitCharList_cons_of_contains sep l hc⟩

theorem splitStr_shape_of_contains (s : String) (h : containsChar '=' s.toList = true) :
    ∃ t, splitStr '=' s = firstSeg s :: secondSeg s :: t := by
  obtain ⟨t2, ht2⟩ := splitCharList_head_shape '=' ((s.toList.dropWhile (fun c => !(c == '='))).drop 1)
  refine ⟨t2.map String.mk, ?_⟩
  unfold splitStr firstSeg secondSeg
  rw [splitCharList_cons_of_contains '=' s.toList h, ht2]
  simp

theorem splitCharList_append_sep (sep : Char) (a b : List Char)
    (ha : containsChar sep a = false) :
    splitCharList sep (a ++ sep :: b) = a :: splitCharList sep b := by
  induction a with
  | nil => simp [splitCharList]
  | cons c a2 ih =>
    simp only [containsChar, Bool.or_eq_false_iff] at ha
    simp [splitCharList, ha.1, ih ha.2]

theorem foldl_parseParamsStep_panicked (l : List GoArg) (msg : String) :
    l.foldl parseParamsStep (ParamsOut.panicked msg) = ParamsOut.panicked msg := by
  induction l with
  | nil => rfl
  | cons a rest ih => simpa [List.foldl, parseParamsStep] using ih

theorem foldl_parseParamsStep_strs (args : List String) (acc : List (String × JSONValue))
    (h : ∀ s ∈ args, containsChar '=' s.toList = true) :
    (args.map GoArg.strArg).foldl parseParamsStep (ParamsOut.ok acc)
      = ParamsOut.ok (args.foldl (fun m s => alistSet m (firstSeg s) (coerceVal (secondSeg s))) acc) := by
  induction args generalizing acc with
  | nil => rfl
  | cons s rest ih =>
    obtain ⟨t, ht⟩ := splitStr_shape_of_contains s (h s (by simp))
    have hstep : parseParamsStep (ParamsOut.ok acc) (GoArg.strArg s)
        = ParamsOut.ok (alistSet acc (firstSeg s) (coerceVal (secondSeg s))) := by
      rw [show parseParamsStep (ParamsOut.ok acc) (GoArg.strArg s)
            = (match splitStr '=' s with
               | k :: v :: _ => ParamsOut.ok (alistSet acc k (coerceVal v))
               | _ => ParamsOut.panicked "index out of range") from rfl, ht]
    simp only [List.map, List.foldl, hstep]
    exact ih _ (fun s2 hs2 => h s2 (by simp [hs2]))

theorem parseTemplateGo_connStd (h p v e : String) :
    parseTemplateGo connTemplate
      [TplArg.mapArg [("hostname", h), ("port", p), ("endpoint", e), ("version", v)]]
    = TplOut.ok (connUrlBase h p v e) := rfl

theorem parseTemplateGo_secStd (h p v e : String) :
    parseTemplateGo secConnTemplate
      [TplArg.mapArg [("hostname", h), ("port", p), ("endpoint", e), ("version", v)]]
    = TplOut.ok (secUrlBase h p v e) := rfl

theorem prepConn_qparams (st : ConnState) :
    (prepConn st).2.qparams = st.qparams.map queryEscape := by
  cases hsec : st.secure
  · simp [prepConn, hsec, parseTemplateGo_connStd]
  · simp [prepConn, hsec, parseTemplateGo_secStd]

theorem prepConn_scheme_sec (st : ConnState) (hsec : st.secure = true) (u : String)
    (hu : (prepConn st).1 = some u) : strStarts u "https://" = true := by
  simp only [prepConn, hsec, Bool.false_eq_true, if_true, if_false,
    parseTemplateGo_secStd, Option.some.injEq] at hu
  split at hu
  · rw [← hu]; exact rfl
  · rw [← hu]; exact rfl

theorem prepConn_scheme_insec (st : ConnState) (hsec : st.secure = false) (u : String)
    (hu : (prepConn st).1 = some u) : strStarts u "http://" = true := by
  simp only [prepConn, hsec, Bool.false_eq_true, if_true, if_false,
    parseTemplateGo_connStd, Option.some.injEq] at hu
  split at hu
  · rw [← hu]; exact rfl
  · rw [← hu]; exact rfl

theorem parseTemplateGo_mapArg (fstring : String) (m : List (String × String)) :
    parseTemplateGo fstring [TplArg.mapArg m]
      = (match parseTmpl fstring with
         | none => TplOut.err "template parse error"
         | some pieces =>
           match m.find? (fun p => !strContains fstring (tplVar p.1)) with
           | some p => TplOut.err ("Could not find arg: " ++ p.1)
           | none => TplOut.ok (renderTpl pieces m)) := by
  cases hps : parseTmpl fstring <;> (unfold parseTemplateGo; rw [hps]; try rfl)

/-! The claims. -/

/-- Claim C1: the spec states that when a verb call's first attempt is
classified RetryAuth, the caller receives the retried attempt's body and
classification and never the internal Retry sentinel. The code instead
panics on every 401 response: doRequest fully reads the body at line 266
and handleBadResponse re-reads the drained stream at line 421, so the
unmarshal of the empty text fails and the classifier panics before any
retry can happen; the concrete run below makes one exchange and aborts.
Moreover, even were the sentinel produced, line 290 discards the result
of the recursive retried call and line 293 returns the first body with
the sentinel error. -/
theorem c1_retryauth_first_attempt_panics :
    (get 10 baseState c1Env "app_instances" []).result = GoOut.panicked "Couldnt understand response"
    ∧ (get 10 baseState c1Env "app_instances" []).trace
        = [TraceEv.exch "GET" "http://h:7717/v2.1/app_instances"] := ⟨rfl, rfl⟩

/-- Claim C2: the spec states that a first attempt classified RetryAuth
clears the token, invokes Login exactly once and re-issues the request
exactly once. On the scenario of the spec (two consecutive 401
PermissionDeniedError answers) the code instead performs zero Login
calls and one single exchange: classification of the first 401 panics
because the response body stream was already consumed. -/
theorem c2_reauth_never_runs_on_retryauth :
    (get 10 baseState c2Env "app_instances" []).result = GoOut.panicked "Couldnt understand response"
    ∧ List.countP isLoginEv (get 10 baseState c2Env "app_instances" []).trace = 0
    ∧ List.countP isExchEv (get 10 baseState c2Env "app_instances" []).trace = 1 := ⟨rfl, rfl, rfl⟩

/-- Claim C3 counterexample: a 401 response whose body cannot be parsed
as an Error Response makes the classifier panic; it does not return a
Fatal error value as the claim states. -/
theorem c3_counterexample_unparseable_401 :
    handleBadResponse 401 "401 Unauthorized" (BodyText.badText 0) = ClassOut.panicked
    ∧ isFatalOut (handleBadResponse 401 "401 Unauthorized" (BodyText.badText 0)) = false := ⟨rfl, rfl⟩

/-- Claim C3 (amended): for every 401 response, a body that cannot be
parsed as an Error Response makes the classifier panic (a process abort,
not a Fatal return), and a parsed body whose name differs from
PermissionDeniedError yields the Fatal error built from the status
line. -/
theorem c3_amended_classifier_401 (status : String) (b : BodyText) :
    (decodeErr21 (parseJSON b) = none → handleBadResponse 401 status b = ClassOut.panicked)
    ∧ (∀ e, decodeErr21 (parseJSON b) = some e → e.name ≠ permDeniedError →
        handleBadResponse 401 status b = ClassOut.val (some (ErrVal.httpStatusErr status))) := by
  constructor
  · intro h
    simp [handleBadResponse, h]
  · intro e he hn
    simp [handleBadResponse, he, hn, httpErrorsSet]

/-- Witness for C3 at concrete inputs. -/
theorem c3_amended_classifier_401_witness :
    handleBadResponse 401 "401 Unauthorized" (BodyText.badText 1) = ClassOut.panicked
    ∧ handleBadResponse 401 "401 Unauthorized"
        (BodyText.jsonText (JSONValue.objVal [("name", JSONValue.strVal "AuthFailedError")]))
      = ClassOut.val (some (ErrVal.httpStatusErr "401 Unauthorized")) :=
  ⟨(c3_amended_classifier_401 "401 Unauthorized" (BodyText.badText 1)).1 rfl,
   (c3_amended_classifier_401 "401 Unauthorized"
      (BodyText.jsonText (JSONValue.objVal [("name", JSONValue.strVal "AuthFailedError")]))).2
     { name := "AuthFailedError" } rfl (by decide)⟩

/-- Claim C4 counterexample: a first argument that is neither a flat
string nor a map (here an int) makes the encoder panic on the string
type assertion; it does not return the EncodingError. -/
theorem c4_counterexample_nonstring_arg :
    parseParamsGo [GoArg.intArg 7] = ParamsOut.panicked "interface conversion"
    ∧ isEncodingErr (parseParamsGo [GoArg.intArg 7]) = false := ⟨rfl, rfl⟩

/-- Claim C4 (amended): only a nil first argument reaches the default
branch and returns the EncodingError; any other first argument that is
neither a map nor a string panics on the type assertion, and a string
argument without an equals sign panics indexing the one-element
split. -/
theorem c4_amended_encoder_failure_modes (rest : List GoArg) (n : Int) (s : String) :
    parseParamsGo (GoArg.nilArg :: rest) = ParamsOut.encodingErr
    ∧ parseParamsGo (GoArg.intArg n :: rest) = ParamsOut.panicked "interface conversion"
    ∧ (containsChar '=' s.toList = false →
        parseParamsGo [GoArg.strArg s] = ParamsOut.panicked "index out of range") := by
  refine ⟨rfl, ?_, ?_⟩
  · rw [show parseParamsGo (GoArg.intArg n :: rest)
        = rest.foldl parseParamsStep (ParamsOut.panicked "interface conversion") from rfl]
    exact foldl_parseParamsStep_panicked rest _
  · intro h
    have hs : splitStr '=' s = [s] := by
      unfold splitStr
      rw [splitCharList_sepFree '=' s.toList h]
      rfl
    rw [show parseParamsGo [GoArg.strArg s]
        = (match splitStr '=' s with
           | k :: v :: _ => ParamsOut.ok (alistSet [] k (coerceVal v))
           | _ => ParamsOut.panicked "index out of range") from rfl, hs]

/-- Witness for C4 at concrete inputs. -/
theorem c4_amended_encoder_failure_modes_witness :
    parseParamsGo [GoArg.nilArg, GoArg.strArg "a=b"] = ParamsOut.encodingErr
    ∧ parseParamsGo [GoArg.intArg 7, GoArg.strArg "a=b"] = ParamsOut.panicked "interface conversion"
    ∧ parseParamsGo [GoArg.strArg "noequals"] = ParamsOut.panicked "index out of range" :=
  ⟨(c4_amended_encoder_failure_modes [GoArg.strArg "a=b"] 7 "noequals").1,
   (c4_amended_encoder_failure_modes [GoArg.strArg "a=b"] 7 "noequals").2.1,
   (c4_amended_encoder_failure_modes [GoArg.strArg "a=b"] 7 "noequals").2.2 (by decide)⟩

/-- Claim C5 counterexample: the encoder splits on every equals sign and
keeps only the second piece, so the argument a=b=c produces the value b,
not the remainder b=c that a split on the first equals sign would
give. -/
theorem c5_counterexample_split_drops_tail :
    parseParamsGo [GoArg.strArg "a=b=c"] = ParamsOut.ok [("a", JSONValue.strVal "b")]
    ∧ (("b" : String) == "b=c") = false := ⟨rfl, rfl⟩

/-- Claim C5 (amended): for flat string arguments each containing an
equals sign, the encoder maps each argument to the key before its first
equals sign and the value between the first and second equals signs
(text after a second equals sign is dropped), with true and false
coerced to booleans; zero arguments give an empty structure and a single
map argument passes through unchanged. -/
theorem c5_amended_flat_encoding (args : List String) (m : List (String × JSONValue)) :
    parseParamsGo [] = ParamsOut.ok []
    ∧ parseParamsGo [GoArg.mapArg m] = ParamsOut.ok m
    ∧ ((∀ s ∈ args, containsChar '=' s.toList = true) →
        parseParamsGo (args.map GoArg.strArg) = ParamsOut.ok (encodeFlatSpec args)) := by
  refine ⟨rfl, rfl, ?_⟩
  intro h
  cases args with
  | nil => rfl
  | cons s rest =>
    rw [show parseParamsGo ((s :: rest).map GoArg.strArg)
        = ((s :: rest).map GoArg.strArg).foldl parseParamsStep (ParamsOut.ok []) from rfl,
      foldl_parseParamsStep_strs (s :: rest) [] h]
    rfl

/-- Witness for C5 at the concrete inputs of the spec examples. -/
theorem c5_amended_flat_encoding_witness :
    parseParamsGo [GoArg.strArg "a=1", GoArg.strArg "b=true"]
      = ParamsOut.ok [("a", JSONValue.strVal "1"), ("b", JSONValue.boolVal true)]
    ∧ parseParamsGo [GoArg.mapArg [("x", JSONValue.arrVal [JSONValue.numVal 1, JSONValue.numVal 2])]]
      = ParamsOut.ok [("x", JSONValue.arrVal [JSONValue.numVal 1, JSONValue.numVal 2])]
    ∧ parseParamsGo [] = ParamsOut.ok [] :=
  ⟨(c5_amended_flat_encoding ["a=1", "b=true"] []).2.2 (by decide),
   (c5_amended_flat_encoding [] [("x", JSONValue.arrVal [JSONValue.numVal 1, JSONValue.numVal 2])]).2.1,
   (c5_amended_flat_encoding [] []).1⟩

/-- Claim C6 counterexample: a 401 whose body fails to parse is in the
fixed error-status set and is not classified RetryAuth, yet the
classifier returns no error value at all: it panics. -/
theorem c6_counterexample_401_empty_body :
    handleBadResponse 401 "401 Unauthorized" BodyText.emptyText = ClassOut.panicked
    ∧ isErrValOut (handleBadResponse 401 "401 Unauthorized" BodyText.emptyText) = false
    ∧ httpErrorsSet 401 = true := ⟨rfl, rfl, rfl⟩

/-- Claim C6 (amended): the classifier returns RetryAuth exactly when the
status is 401 and the parsed body carries the PermissionDeniedError name;
it panics exactly when the status is 401 and the body cannot be parsed;
every status outside the fixed set is Success regardless of body; every
status in the set other than 401, and every 401 with a parsed body of a
different name, is the Fatal error built from the status line. -/
theorem c6_amended_classifier_characterization (code : Int) (status : String) (b : BodyText) :
    (handleBadResponse code status b = ClassOut.val (some ErrVal.retrySentinel) ↔
      code = 401 ∧ ∃ e, decodeErr21 (parseJSON b) = some e ∧ e.name = permDeniedError)
    ∧ (handleBadResponse code status b = ClassOut.panicked ↔
      code = 401 ∧ decodeErr21 (parseJSON b) = none)
    ∧ (httpErrorsSet code = false → handleBadResponse code status b = ClassOut.val none)
    ∧ (httpErrorsSet code = true → code ≠ 401 →
        handleBadResponse code status b = ClassOut.val (some (ErrVal.httpStatusErr status)))
    ∧ (code = 401 → ∀ e, decodeErr21 (parseJSON b) = some e → e.name ≠ permDeniedError →
        handleBadResponse code status b = ClassOut.val (some (ErrVal.httpStatusErr status))) := by
  by_cases hc : code = 401
  · subst hc
    cases hd : decodeErr21 (parseJSON b) with
    | none =>
      refine ⟨?_, ?_, ?_, ?_, ?_⟩
      · simp [handleBadResponse, hd]
      · simp [handleBadResponse, hd]
      · intro hset; exact absurd hset (by decide)
      · intro _ hne; exact absurd rfl hne
      · intro _ e he; exact absurd he (by simp)
    | some e =>
      by_cases hn : e.name = permDeniedError
      · refine ⟨?_, ?_, ?_, ?_, ?_⟩
        · simp [handleBadResponse, hd, hn]
        · simp [handleBadResponse, hd, hn]
        · intro hset; exact absurd hset (by decide)
        · intro _ hne; exact absurd rfl hne
        · intro _ e2 he2 hn2
          injection he2 with he3
          rw [← he3] at hn2
          exact absurd hn hn2
      · refine ⟨?_, ?_, ?_, ?_, ?_⟩
        · simp [handleBadResponse, hd, hn, httpErrorsSet]
        · simp [handleBadResponse, hd, hn, httpErrorsSet]
        · intro hset; exact absurd hset (by decide)
        · intro _ hne; exact absurd rfl hne
        · intro _ e2 he2 hn2
          injection he2 with he3
          subst he3
          simp [handleBadResponse, hd, hn, httpErrorsSet]
  · have hcb : (code == 401) = false := by simp [hc]
    cases hset : httpErrorsSet code with
    | false =>
      refine ⟨?_, ?_, ?_, ?_, ?_⟩
      · simp [handleBadResponse, hcb, hset, hc]
      · simp [handleBadResponse, hcb, hset, hc]
      · intro _; simp [handleBadResponse, hcb, hset]
      · intro hs2; exact absurd hs2 (by decide)
      · intro h401; exact absurd h401 hc
    | true =>
      refine ⟨?_, ?_, ?_, ?_, ?_⟩
      · simp [handleBadResponse, hcb, hset, hc]
      · simp [handleBadResponse, hcb, hset, hc]
      · intro hs2; exact absurd hs2 (by decide)
      · intro _ _; simp [handleBadResponse, hcb, hset]
      · intro h401; exact absurd h401 hc

/-- Witness for C6 at concrete inputs. -/
theorem c6_amended_classifier_characterization_witness :
    handleBadResponse 200 "200 OK" (BodyText.jsonText (JSONValue.strVal "x")) = ClassOut.val none
    ∧ handleBadResponse 500 "500 ISE" (BodyText.badText 2)
        = ClassOut.val (some (ErrVal.httpStatusErr "500 ISE"))
    ∧ handleBadResponse 401 "401 U2" (BodyText.jsonText (JSONValue.objVal []))
        = ClassOut.val (some (ErrVal.httpStatusErr "401 U2")) :=
  ⟨(c6_amended_classifier_characterization 200 "200 OK"
      (BodyText.jsonText (JSONValue.strVal "x"))).2.2.1 (by decide),
   (c6_amended_classifier_characterization 500 "500 ISE" (BodyText.badText 2)).2.2.2.1
     (by decide) (by decide),
   (c6_amended_classifier_characterization 401 "401 U2"
      (BodyText.jsonText (JSONValue.objVal []))).2.2.2.2 rfl {} rfl (by decide)⟩

/-- Claim C7: when the cached token is non-empty, Login returns success,
changes nothing, consumes no response and performs zero HTTP exchanges
(its trace holds only the entry event); applying this to the state after
a first Login that set a non-empty token gives the idempotence of the
claim. -/
theorem c7_login_idempotent_fastpath (st : ConnState) (env : List HResp) (fuel : Nat)
    (htok : st.apiToken ≠ "") :
    login (Nat.succ fuel) st env = ⟨GoOut.ok none, st, env, [TraceEv.loginEnter]⟩
    ∧ List.countP isExchEv [TraceEv.loginEnter] = 0 := by
  have hb : (st.apiToken == "") = false := by simp [htok]
  constructor
  · simp only [login, hb, Bool.false_eq_true, if_false]
  · rfl

/-- Witness for C7 at a concrete state with a cached token. -/
theorem c7_login_idempotent_fastpath_witness :
    login 5 baseState [] = ⟨GoOut.ok none, baseState, [], [TraceEv.loginEnter]⟩
    ∧ List.countP isExchEv [TraceEv.loginEnter] = 0 :=
  c7_login_idempotent_fastpath baseState [] 4 (by decide)

/-- Claim C8: the template renderer fails when the template does not
parse or when some key of the mapping is not referenced in the template
text; with a parsed template and every key referenced it returns the
rendered string; and every URL prepConn builds begins with https when
the session is secure and http otherwise. -/
theorem c8_template_renderer (fstring : String) (m : List (String × String)) (st : ConnState) :
    (parseTmpl fstring = none →
      parseTemplateGo fstring [TplArg.mapArg m] = TplOut.err "template parse error")
    ∧ (∀ k v, (k, v) ∈ m → strContains fstring (tplVar k) = false →
        ∃ msg, parseTemplateGo fstring [TplArg.mapArg m] = TplOut.err msg)
    ∧ (∀ ps, parseTmpl fstring = some ps →
        (∀ p ∈ m, strContains fstring (tplVar p.1) = true) →
        parseTemplateGo fstring [TplArg.mapArg m] = TplOut.ok (renderTpl ps m))
    ∧ (st.secure = true → ∀ u, (prepConn st).1 = some u → strStarts u "https://" = true)
    ∧ (st.secure = false → ∀ u, (prepConn st).1 = some u → strStarts u "http://" = true) := by
  refine ⟨?_, ?_, ?_, ?_, ?_⟩
  · intro h
    rw [parseTemplateGo_mapArg, h]
  · intro k v hmem hnc
    rw [parseTemplateGo_mapArg]
    cases hps : parseTmpl fstring with
    | none => exact ⟨"template parse error", rfl⟩
    | some ps =>
      cases hf : m.find? (fun p => !strContains fstring (tplVar p.1)) with
      | some p => exact ⟨"Could not find arg: " ++ p.1, rfl⟩
      | none =>
        exfalso
        have := List.find?_eq_none.mp hf (k, v) hmem
        simp [hnc] at this
  · intro ps hps hall
    rw [parseTemplateGo_mapArg, hps]
    have hf : m.find? (fun p => !strContains fstring (tplVar p.1)) = none :=
      List.find?_eq_none.mpr (fun x hx => by simp [hall x hx])
    rw [hf]
  · intro hsec u hu
    exact prepConn_scheme_sec st hsec u hu
  · intro hsec u hu
    exact prepConn_scheme_insec st hsec u hu

/-- Witness for C8 at concrete templates, mappings and states. -/
theorem c8_template_renderer_witness :
    parseTemplateGo (String.mk [lbrace, lbrace]) [TplArg.mapArg []] = TplOut.err "template parse error"
    ∧ (∃ msg, parseTemplateGo ("http://" ++ tplVar "hostname")
        [TplArg.mapArg [("hostname", "h"), ("port", "7717")]] = TplOut.err msg)
    ∧ parseTemplateGo connTemplate [TplArg.mapArg stdTplMap] = TplOut.ok "http://h:7717/v2.1/ep"
    ∧ strStarts "https://h:7717/v2.1/ep" "https://" = true := by
  refine ⟨?_, ?_, ?_, ?_⟩
  · exact (c8_template_renderer (String.mk [lbrace, lbrace]) [] baseState).1 rfl
  · exact (c8_template_renderer ("http://" ++ tplVar "hostname")
      [("hostname", "h"), ("port", "7717")] baseState).2.1 "port" "7717" (by decide) (by decide)
  · exact (c8_template_renderer connTemplate stdTplMap baseState).2.2.1 _ rfl (by decide)
  · exact (c8_template_renderer connTemplate stdTplMap c8State).2.2.2.1 rfl
      "https://h:7717/v2.1/ep" (by rfl)

/-- Claim C9: UpdateHeaders sets exactly the given entry for an argument
of the key=value form, panics indexing past the one-element split for an
argument without an equals sign, and returns a nil error on every input
on which it completes. -/
theorem c9_update_headers (hs : List (String × String)) (k v s : String)
    (hk : containsChar '=' k.toList = false) (hv : containsChar '=' v.toList = false)
    (hns : containsChar '=' s.toList = false) :
    updateHeadersGo hs [k ++ "=" ++ v] = GoOut.ok (alistSet hs k v, none)
    ∧ updateHeadersGo hs [s] = GoOut.panicked "index out of range"
    ∧ (∀ args res e, updateHeadersGo hs args = GoOut.ok (res, e) → e = none) := by
  refine ⟨?_, ?_, ?_⟩
  · have hlist : (k ++ "=" ++ v).toList = k.toList ++ '=' :: v.toList := by
      simp [String.data_append, List.append_assoc, show ("=" : String).data = ['='] from rfl]
    have hsplit : splitStr '=' (k ++ "=" ++ v) = [k, v] := by
      unfold splitStr
      rw [hlist, splitCharList_append_sep '=' k.toList v.toList hk,
        splitCharList_sepFree '=' v.toList hv]
      rfl
    unfold updateHeadersGo
    rw [show ([k ++ "=" ++ v]).foldl updateHeadersStep (GoOut.ok hs)
        = updateHeadersStep (GoOut.ok hs) (k ++ "=" ++ v) from rfl,
      show updateHeadersStep (GoOut.ok hs) (k ++ "=" ++ v)
        = (match splitStr '=' (k ++ "=" ++ v) with
           | k2 :: v2 :: _ => GoOut.ok (alistSet hs k2 v2)
           | _ => GoOut.panicked "index out of range") from rfl, hsplit]
  · have hsplit : splitStr '=' s = [s] := by
      unfold splitStr
      rw [splitCharList_sepFree '=' s.toList hns]
      rfl
    unfold updateHeadersGo
    rw [show ([s]).foldl updateHeadersStep (GoOut.ok hs)
        = updateHeadersStep (GoOut.ok hs) s from rfl,
      show updateHeadersStep (GoOut.ok hs) s
        = (match splitStr '=' s with
           | k2 :: v2 :: _ => GoOut.ok (alistSet hs k2 v2)
           | _ => GoOut.panicked "index out of range") from rfl, hsplit]
  · intro args res e hres
    unfold updateHeadersGo at hres
    cases hf : args.foldl updateHeadersStep (GoOut.ok hs) <;> rw [hf] at hres
    · simp only [GoOut.ok.injEq, Prod.mk.injEq] at hres
      exact hres.2.symm
    · exact absurd hres (by simp)
    · exact absurd hres (by simp)

/-- Witness for C9 at concrete headers and arguments. -/
theorem c9_update_headers_witness :
    updateHeadersGo [("a", "b")] ["Auth-Token=xyz"]
      = GoOut.ok ([("a", "b"), ("Auth-Token", "xyz")], none)
    ∧ updateHeadersGo [("a", "b")] ["nope"] = GoOut.panicked "index out of range" :=
  ⟨(c9_update_headers [("a", "b")] "Auth-Token" "xyz" "nope" (by decide) (by decide) (by decide)).1,
   (c9_update_headers [("a", "b")] "Auth-Token" "xyz" "nope" (by decide) (by decide) (by decide)).2.1⟩

/-- Claim C10 counterexample: in the scenario the claim describes (a
first response of 401 PermissionDeniedError, query parameter needing
escaping), no retried request with a double-escaped URL exists: the one
and only exchange carries the once-escaped URL and the call then panics
during classification, before the retry branch can run. -/
theorem c10_counterexample_no_retried_request :
    (get 10 baseState c10Env "ep" ["sp ace"]).trace
      = [TraceEv.exch "GET" "http://h:7717/v2.1/ep?sp+ace"]
    ∧ (get 10 baseState c10Env "ep" ["sp ace"]).result = GoOut.panicked "Couldnt understand response" := ⟨rfl, rfl⟩

/-- Claim C10 (amended): prepConn escapes the query parameters stored on
the session in place, so running the build phase again over the resulting
session state (as the retry call would, since the retried call passes the
same mutated slice) escapes every parameter a second time; but no retried
request is ever issued, because a 401 first response panics during
classification, as the concrete run shows. -/
theorem c10_amended_inplace_escape (st : ConnState) :
    (prepConn st).2.qparams = st.qparams.map queryEscape
    ∧ (prepConn (prepConn st).2).2.qparams = st.qparams.map (fun p => queryEscape (queryEscape p))
    ∧ (get 10 baseState c10Env "ep" ["a=b%"]).result = GoOut.panicked "Couldnt understand response"
    ∧ List.countP isExchEv (get 10 baseState c10Env "ep" ["a=b%"]).trace = 1 := by
  refine ⟨prepConn_qparams st, ?_, rfl, rfl⟩
  rw [prepConn_qparams, prepConn_qparams, List.map_map]
  rfl

end DSDK
